import Mathlib

/-
  Shallow embedding of src/src/Builder/index.js (Builder design pattern demo).

  The JavaScript classes Product1, Builder, ConcreteBuilder1 and Director are
  modelled as Lean structures with explicit state passing.  JavaScript runtime
  failures are modelled by an explicit error type: `throw new Error(msg)`
  becomes `JsError.error msg`, and the TypeError the runtime raises when a
  missing method or an undefined reference is dereferenced becomes
  `JsError.typeError msg`.  Object identity of `new Product1()` allocations is
  modelled by a numeric allocation id carried by each Product1 and a counter
  carried by the builder, so that claims about "distinct instances" are
  expressible in a value semantics.
-/

namespace DesignPatterns

/-- Errors a method call can raise at runtime: `error` models
`throw new Error(msg)` in the source, `typeError` models the TypeError the
JavaScript runtime raises (missing method, dereference of undefined). -/
inductive JsError where
  | error (msg : String)
  | typeError (msg : String)
  deriving DecidableEq, Repr

/-- Message of the simulated abstract methods in class Builder:
`throw new Error(name + "() method must be implemented")`. -/
def notImplementedMsg (name : String) : String :=
  name ++ "() method must be implemented"

/-- Whether an error is a NotImplemented-kind error, i.e. one of the
`must be implemented` errors thrown by the abstract methods of Builder. -/
def JsError.isNotImplementedKind : JsError → Bool
  | JsError.error msg =>
      (msg == notImplementedMsg "buildPartA") ||
      (msg == notImplementedMsg "buildPartB") ||
      (msg == notImplementedMsg "buildPartC")
  | JsError.typeError _ => false

/-- class Product1: `this.parts = []` plus an allocation id modelling the
identity of the object created by `new Product1()`. -/
structure Product1 where
  id : Nat
  parts : List String
  deriving DecidableEq, Repr

/-- Body of the Product1 constructor: `this.parts = []`, at allocation id i. -/
def Product1.new (i : Nat) : Product1 :=
  { id := i, parts := [] }

/-- listParts(): logs \x60Product parts: ${this.parts.join(", ")}\n\x60.  The
first component is the logged string, the second the (unchanged) product. -/
def Product1.listParts (p : Product1) : String × Product1 :=
  ("Product parts: " ++ String.intercalate ", " p.parts ++ "\n", p)

/-- Names of the methods relevant to the Builder class surface. -/
inductive MethodName where
  | buildPartA
  | buildPartB
  | buildPartC
  | producePartA
  | producePartB
  | producePartC
  deriving DecidableEq, Repr

/-- Rendering of a method name, used in runtime error messages. -/
def MethodName.str : MethodName → String
  | MethodName.buildPartA => "buildPartA"
  | MethodName.buildPartB => "buildPartB"
  | MethodName.buildPartC => "buildPartC"
  | MethodName.producePartA => "producePartA"
  | MethodName.producePartB => "producePartB"
  | MethodName.producePartC => "producePartC"

/-- Method table of class Builder, transcribed from the class body: only the
three simulated abstract methods exist, and each immediately throws
`new Error("...() method must be implemented")`.  A bare Builder instance has
no state, so each method body is just its outcome. -/
def Builder.lookupMethod : MethodName → Option (Except JsError Unit)
  | MethodName.buildPartA =>
      some (Except.error (JsError.error (notImplementedMsg "buildPartA")))
  | MethodName.buildPartB =>
      some (Except.error (JsError.error (notImplementedMsg "buildPartB")))
  | MethodName.buildPartC =>
      some (Except.error (JsError.error (notImplementedMsg "buildPartC")))
  | _ => none

/-- JavaScript call semantics on a bare Builder instance: a declared method
runs its body; calling a name the class does not declare raises
`TypeError: ... is not a function`. -/
def Builder.invoke (m : MethodName) : Except JsError Unit :=
  match Builder.lookupMethod m with
  | some r => r
  | none => Except.error (JsError.typeError (m.str ++ " is not a function"))

/-- class ConcreteBuilder1: `this.product` (undefined before the constructor
body runs, hence an Option) and the allocation counter for `new Product1()`. -/
structure ConcreteBuilder1 where
  product : Option Product1
  nextId : Nat
  deriving DecidableEq, Repr

/-- reset(): `this.product = new Product1()`, allocating a fresh instance. -/
def ConcreteBuilder1.reset (b : ConcreteBuilder1) : ConcreteBuilder1 :=
  { product := some (Product1.new b.nextId), nextId := b.nextId + 1 }

/-- Constructor of ConcreteBuilder1: `super(); this.reset();` starting from a
state where `this.product` is still undefined. -/
def ConcreteBuilder1.new : ConcreteBuilder1 :=
  ConcreteBuilder1.reset { product := none, nextId := 0 }

/-- Shared body shape of the three produce methods:
`this.product.parts.push(part)`.  If `this.product` were undefined the
dereference would raise a TypeError. -/
def ConcreteBuilder1.pushPart (b : ConcreteBuilder1) (part : String) :
    Except JsError ConcreteBuilder1 :=
  match b.product with
  | none =>
      Except.error (JsError.typeError "Cannot read properties of undefined (reading parts)")
  | some p =>
      Except.ok { b with product := some { p with parts := p.parts ++ [part] } }

/-- producePartA(): `this.product.parts.push("PartA1")`. -/
def ConcreteBuilder1.producePartA (b : ConcreteBuilder1) : Except JsError ConcreteBuilder1 :=
  b.pushPart "PartA1"

/-- producePartB(): `this.product.parts.push("PartB1")`. -/
def ConcreteBuilder1.producePartB (b : ConcreteBuilder1) : Except JsError ConcreteBuilder1 :=
  b.pushPart "PartB1"

/-- producePartC(): `this.product.parts.push("PartC1")`. -/
def ConcreteBuilder1.producePartC (b : ConcreteBuilder1) : Except JsError ConcreteBuilder1 :=
  b.pushPart "PartC1"

/-- getProduct(): `const result = this.product; this.reset(); return result;`.
Returns the held product (undefined only if the builder state were corrupt)
and the reset builder. -/
def ConcreteBuilder1.getProduct (b : ConcreteBuilder1) :
    Option Product1 × ConcreteBuilder1 :=
  (b.product, b.reset)

/-- buildPartA is not overridden by ConcreteBuilder1; it is inherited from
Builder and throws regardless of the builder state. -/
def ConcreteBuilder1.buildPartA (_b : ConcreteBuilder1) : Except JsError Unit :=
  Builder.invoke MethodName.buildPartA

/-- buildPartB is not overridden by ConcreteBuilder1; inherited from Builder. -/
def ConcreteBuilder1.buildPartB (_b : ConcreteBuilder1) : Except JsError Unit :=
  Builder.invoke MethodName.buildPartB

/-- buildPartC is not overridden by ConcreteBuilder1; inherited from Builder. -/
def ConcreteBuilder1.buildPartC (_b : ConcreteBuilder1) : Except JsError Unit :=
  Builder.invoke MethodName.buildPartC

/-- Well-formedness of a builder state: the held product (if any) was
allocated before the current value of the allocation counter.  Holds for
every state reachable from the constructor. -/
def ConcreteBuilder1.wfb (b : ConcreteBuilder1) : Bool :=
  match b.product with
  | none => true
  | some p => p.id < b.nextId

/-- One item of a sequence of producePartX calls. -/
inductive PartStep where
  | partA
  | partB
  | partC
  deriving DecidableEq, Repr

/-- The fixed identifier the ConcreteBuilder1 produce method for this step
pushes onto the product. -/
def PartStep.partName : PartStep → String
  | PartStep.partA => "PartA1"
  | PartStep.partB => "PartB1"
  | PartStep.partC => "PartC1"

/-- Dispatch of one producePartX call on a ConcreteBuilder1. -/
def ConcreteBuilder1.producePart (b : ConcreteBuilder1) : PartStep → Except JsError ConcreteBuilder1
  | PartStep.partA => b.producePartA
  | PartStep.partB => b.producePartB
  | PartStep.partC => b.producePartC

/-- Runs a finite sequence of producePartX calls, stopping at the first
runtime error. -/
def ConcreteBuilder1.runProduce (b : ConcreteBuilder1) : List PartStep → Except JsError ConcreteBuilder1
  | [] => Except.ok b
  | s :: rest =>
      match b.producePart s with
      | Except.ok b1 => b1.runProduce rest
      | Except.error e => Except.error e

/-- Any single public operation of ConcreteBuilder1 that mutates or replaces
its current product (the result of getProduct is dropped here; only the
builder state evolution matters). -/
inductive BuilderOp where
  | producePartA
  | producePartB
  | producePartC
  | reset
  | getProduct
  deriving DecidableEq, Repr

/-- Applies one operation to the builder state. -/
def ConcreteBuilder1.applyOp (b : ConcreteBuilder1) : BuilderOp → Except JsError ConcreteBuilder1
  | BuilderOp.producePartA => b.producePartA
  | BuilderOp.producePartB => b.producePartB
  | BuilderOp.producePartC => b.producePartC
  | BuilderOp.reset => Except.ok b.reset
  | BuilderOp.getProduct => Except.ok (b.getProduct).2

/-- Runs a finite sequence of builder operations. -/
def ConcreteBuilder1.runOps (b : ConcreteBuilder1) : List BuilderOp → Except JsError ConcreteBuilder1
  | [] => Except.ok b
  | op :: rest =>
      match b.applyOp op with
      | Except.ok b1 => b1.runOps rest
      | Except.error e => Except.error e

/-- Identity of one of the two builder objects living in a World. -/
inductive BuilderRef where
  | r1
  | r2
  deriving DecidableEq, Repr

/-- A heap with two ConcreteBuilder1 objects plus the single Director object
of the program.  `directorBuilder` is `this.builder` of the Director:
undefined (none) until setBuilder is called, afterwards a reference to one of
the builder objects.  Director methods mutate the referenced builder through
the reference, exactly as the JavaScript aliasing does. -/
structure World where
  b1 : ConcreteBuilder1
  b2 : ConcreteBuilder1
  directorBuilder : Option BuilderRef
  deriving DecidableEq, Repr

/-- Reads the builder object a reference points to. -/
def World.getBuilder (w : World) : BuilderRef → ConcreteBuilder1
  | BuilderRef.r1 => w.b1
  | BuilderRef.r2 => w.b2

/-- Writes back the builder object a reference points to. -/
def World.setBuilderState (w : World) : BuilderRef → ConcreteBuilder1 → World
  | BuilderRef.r1, b => { w with b1 := b }
  | BuilderRef.r2, b => { w with b2 := b }

/-- Director.setBuilder(builder): `this.builder = builder`.  No validation. -/
def World.setBuilder (w : World) (r : BuilderRef) : World :=
  { w with directorBuilder := some r }

/-- One producePartX call made through a reference: read the object, run the
method, write the mutated object back. -/
def World.produceOn (w : World) (r : BuilderRef) (s : PartStep) : Except JsError World :=
  match (w.getBuilder r).producePart s with
  | Except.ok b1 => Except.ok (w.setBuilderState r b1)
  | Except.error e => Except.error e

/-- Director.buildMinimalViableProduct(): `this.builder.producePartA()`.
If `this.builder` is undefined the dereference raises a TypeError. -/
def World.buildMinimalViableProduct (w : World) : Except JsError World :=
  match w.directorBuilder with
  | none =>
      Except.error (JsError.typeError "Cannot read properties of undefined (reading producePartA)")
  | some r => w.produceOn r PartStep.partA

/-- Director.buildFullFeaturedProduct(): `this.builder.producePartA();
this.builder.producePartB(); this.builder.producePartC();`.  The recipe never
reassigns `this.builder`, so the single reference read here is faithful. -/
def World.buildFullFeaturedProduct (w : World) : Except JsError World :=
  match w.directorBuilder with
  | none =>
      Except.error (JsError.typeError "Cannot read properties of undefined (reading producePartA)")
  | some r =>
      match w.produceOn r PartStep.partA with
      | Except.error e => Except.error e
      | Except.ok w1 =>
          match w1.produceOn r PartStep.partB with
          | Except.error e => Except.error e
          | Except.ok w2 => w2.produceOn r PartStep.partC

/-- One of the two Director recipes. -/
inductive Recipe where
  | minimalViable
  | fullFeatured
  deriving DecidableEq, Repr

/-- Runs one Director recipe. -/
def World.runRecipe (w : World) : Recipe → Except JsError World
  | Recipe.minimalViable => w.buildMinimalViableProduct
  | Recipe.fullFeatured => w.buildFullFeaturedProduct

/-- Runs a finite sequence of Director recipe calls. -/
def World.runRecipes (w : World) : List Recipe → Except JsError World
  | [] => Except.ok w
  | rc :: rest =>
      match w.runRecipe rc with
      | Except.ok w1 => w1.runRecipes rest
      | Except.error e => Except.error e

/-- A world as the demo client sets it up: two freshly constructed
ConcreteBuilder1 objects and a Director on which setBuilder has not yet been
called. -/
def freshWorld : World :=
  { b1 := ConcreteBuilder1.new, b2 := ConcreteBuilder1.new, directorBuilder := none }

/-- Running a sequence of producePartX calls on a builder holding a defined
product succeeds and appends exactly the fixed identifiers, in call order. -/
theorem runProduce_ok (steps : List PartStep) :
    ∀ (i n : Nat) (acc : List String),
      (ConcreteBuilder1.mk (some (Product1.mk i acc)) n).runProduce steps =
        Except.ok (ConcreteBuilder1.mk (some (Product1.mk i (acc ++ steps.map PartStep.partName))) n) := by
  induction steps with
  | nil =>
      intro i n acc
      simp [ConcreteBuilder1.runProduce]
  | cons s rest ih =>
      intro i n acc
      cases s <;>
        simp [ConcreteBuilder1.runProduce, ConcreteBuilder1.producePart,
          ConcreteBuilder1.producePartA, ConcreteBuilder1.producePartB,
          ConcreteBuilder1.producePartC, ConcreteBuilder1.pushPart,
          PartStep.partName, ih]

/-- Reading back the reference just written yields the written object. -/
theorem getBuilder_set_same (w : World) (r : BuilderRef) (b : ConcreteBuilder1) :
    (w.setBuilderState r b).getBuilder r = b := by
  cases r <;> rfl

/-- Writing the same reference twice keeps only the second write. -/
theorem set_set_same (w : World) (r : BuilderRef) (b b1 : ConcreteBuilder1) :
    (w.setBuilderState r b).setBuilderState r b1 = w.setBuilderState r b1 := by
  cases r <;> rfl

/-- Writing a builder object back does not touch the Director reference. -/
theorem directorBuilder_set (w : World) (r : BuilderRef) (b : ConcreteBuilder1) :
    (w.setBuilderState r b).directorBuilder = w.directorBuilder := by
  cases r <;> rfl

/-- produceOn is the method result mapped through the write-back. -/
theorem produceOn_eq (w : World) (r : BuilderRef) (s : PartStep) :
    w.produceOn r s =
      ((w.getBuilder r).producePart s).map (fun b => w.setBuilderState r b) := by
  cases hps : (w.getBuilder r).producePart s <;>
    simp [World.produceOn, hps, Except.map]

/-- With a builder set, the full-featured recipe is exactly the execution of
the step sequence A, B, C on the held builder, written back through the
Director reference. -/
theorem buildFull_eq_runProduce (w : World) (r : BuilderRef)
    (h : w.directorBuilder = some r) :
    w.buildFullFeaturedProduct =
      ((w.getBuilder r).runProduce [PartStep.partA, PartStep.partB, PartStep.partC]).map
        (fun b => w.setBuilderState r b) := by
  cases hA : (w.getBuilder r).producePart PartStep.partA with
  | error e =>
      simp [World.buildFullFeaturedProduct, h, produceOn_eq, hA, Except.map,
        ConcreteBuilder1.runProduce]
  | ok bA =>
      cases hB : bA.producePart PartStep.partB with
      | error e =>
          simp [World.buildFullFeaturedProduct, h, produceOn_eq, hA, hB, Except.map,
            ConcreteBuilder1.runProduce, getBuilder_set_same]
      | ok bB =>
          cases hC : bB.producePart PartStep.partC with
          | error e =>
              simp [World.buildFullFeaturedProduct, h, produceOn_eq, hA, hB, hC, Except.map,
                ConcreteBuilder1.runProduce, getBuilder_set_same, set_set_same]
          | ok bC =>
              simp [World.buildFullFeaturedProduct, h, produceOn_eq, hA, hB, hC, Except.map,
                ConcreteBuilder1.runProduce, getBuilder_set_same, set_set_same]

/-- With a builder set, the minimal recipe is exactly the execution of the
single step A on the held builder. -/
theorem buildMinimal_eq_runProduce (w : World) (r : BuilderRef)
    (h : w.directorBuilder = some r) :
    w.buildMinimalViableProduct =
      ((w.getBuilder r).runProduce [PartStep.partA]).map
        (fun b => w.setBuilderState r b) := by
  cases hA : (w.getBuilder r).producePart PartStep.partA <;>
    simp [World.buildMinimalViableProduct, h, produceOn_eq, hA, Except.map,
      ConcreteBuilder1.runProduce]

/-- A produce call through the r2 reference leaves b1 and the Director
reference untouched. -/
theorem produceOn_r2_frame (w : World) (s : PartStep) (w1 : World)
    (h : w.produceOn BuilderRef.r2 s = Except.ok w1) :
    w1.b1 = w.b1 ∧ w1.directorBuilder = w.directorBuilder := by
  rw [produceOn_eq] at h
  cases hps : (w.getBuilder BuilderRef.r2).producePart s with
  | error e => rw [hps] at h; simp [Except.map] at h
  | ok b =>
      rw [hps] at h
      simp only [Except.map, Except.ok.injEq] at h
      subst h
      exact ⟨rfl, rfl⟩

/-- One recipe call on a Director holding r2 leaves b1 untouched and keeps
the reference at r2. -/
theorem runRecipe_r2_frame (w : World) (rc : Recipe) (w1 : World)
    (hd : w.directorBuilder = some BuilderRef.r2)
    (h : w.runRecipe rc = Except.ok w1) :
    w1.b1 = w.b1 ∧ w1.directorBuilder = some BuilderRef.r2 := by
  cases rc with
  | minimalViable =>
      simp only [World.runRecipe, World.buildMinimalViableProduct, hd] at h
      obtain ⟨h1, h2⟩ := produceOn_r2_frame w PartStep.partA w1 h
      exact ⟨h1, h2.trans hd⟩
  | fullFeatured =>
      simp only [World.runRecipe, World.buildFullFeaturedProduct, hd] at h
      cases hA : w.produceOn BuilderRef.r2 PartStep.partA with
      | error e => simp only [hA] at h; exact Except.noConfusion h
      | ok wA =>
          simp only [hA] at h
          cases hB : wA.produceOn BuilderRef.r2 PartStep.partB with
          | error e => simp only [hB] at h; exact Except.noConfusion h
          | ok wB =>
              simp only [hB] at h
              obtain ⟨a1, a2⟩ := produceOn_r2_frame w PartStep.partA wA hA
              obtain ⟨m1, m2⟩ := produceOn_r2_frame wA PartStep.partB wB hB
              obtain ⟨c1, c2⟩ := produceOn_r2_frame wB PartStep.partC w1 h
              exact ⟨(c1.trans m1).trans a1, c2.trans ((m2.trans a2).trans hd)⟩

/-- Any sequence of recipe calls on a Director holding r2 leaves b1
untouched and keeps the reference at r2. -/
theorem runRecipes_r2_frame (recipes : List Recipe) :
    ∀ (w w1 : World), w.directorBuilder = some BuilderRef.r2 →
      w.runRecipes recipes = Except.ok w1 →
      w1.b1 = w.b1 ∧ w1.directorBuilder = some BuilderRef.r2 := by
  induction recipes with
  | nil =>
      intro w w1 hd h
      simp only [World.runRecipes, Except.ok.injEq] at h
      subst h
      exact ⟨rfl, hd⟩
  | cons rc rest ih =>
      intro w w1 hd h
      cases hstep : w.runRecipe rc with
      | error e =>
          simp only [World.runRecipes, hstep] at h
          exact Except.noConfusion h
      | ok wm =>
          have hm := runRecipe_r2_frame w rc wm hd hstep
          have hrest := ih wm w1 hm.2 (by simpa only [World.runRecipes, hstep] using h)
          exact ⟨hrest.1.trans hm.1, hrest.2⟩

/-- Every single operation on a builder holding a defined product succeeds
and again leaves a defined product. -/
theorem applyOp_defined (b : ConcreteBuilder1) (op : BuilderOp) (p : Product1)
    (hp : b.product = some p) :
    ∃ b1, b.applyOp op = Except.ok b1 ∧ (b1.product).isSome = true := by
  cases op <;>
    simp [ConcreteBuilder1.applyOp, ConcreteBuilder1.producePartA,
      ConcreteBuilder1.producePartB, ConcreteBuilder1.producePartC,
      ConcreteBuilder1.pushPart, ConcreteBuilder1.reset,
      ConcreteBuilder1.getProduct, hp]

/-- Every sequence of operations on a builder holding a defined product
succeeds and again leaves a defined product. -/
theorem runOps_defined (ops : List BuilderOp) :
    ∀ b : ConcreteBuilder1, (b.product).isSome = true →
      ∃ b1, b.runOps ops = Except.ok b1 ∧ (b1.product).isSome = true := by
  induction ops with
  | nil => intro b hb; exact ⟨b, rfl, hb⟩
  | cons op rest ih =>
      intro b hb
      obtain ⟨p, hp⟩ := Option.isSome_iff_exists.mp hb
      obtain ⟨bm, hstep, hbm⟩ := applyOp_defined b op p hp
      obtain ⟨b1, hrun, hb1⟩ := ih bm hbm
      exact ⟨b1, by simp only [ConcreteBuilder1.runOps, hstep]; exact hrun, hb1⟩

/-- pushPart keeps the allocation counter and the held product id, so any
lower bound on both is preserved. -/
theorem pushPart_id_lb (n : Nat) (b b1 : ConcreteBuilder1) (part : String)
    (hn : n ≤ b.nextId) (hq : ∀ q, b.product = some q → n ≤ q.id)
    (h : b.pushPart part = Except.ok b1) :
    n ≤ b1.nextId ∧ ∀ q, b1.product = some q → n ≤ q.id := by
  cases hp : b.product with
  | none =>
      simp only [ConcreteBuilder1.pushPart, hp] at h
      exact Except.noConfusion h
  | some p =>
      simp only [ConcreteBuilder1.pushPart, hp, Except.ok.injEq] at h
      subst h
      refine ⟨hn, ?_⟩
      intro q hq2
      simp only [Option.some.injEq] at hq2
      rw [← hq2]
      exact hq p hp

/-- reset allocates the current counter value as the new product id, so any
lower bound below the counter is preserved. -/
theorem reset_id_lb (n : Nat) (b : ConcreteBuilder1) (hn : n ≤ b.nextId) :
    n ≤ b.reset.nextId ∧ ∀ q, b.reset.product = some q → n ≤ q.id := by
  refine ⟨Nat.le_succ_of_le hn, ?_⟩
  intro q hq
  simp only [ConcreteBuilder1.reset, Product1.new, Option.some.injEq] at hq
  rw [← hq]
  exact hn

/-- Any single operation preserves a lower bound on the allocation counter
and on the id of the held product. -/
theorem applyOp_id_lb (n : Nat) (b b1 : ConcreteBuilder1) (op : BuilderOp)
    (hn : n ≤ b.nextId) (hq : ∀ q, b.product = some q → n ≤ q.id)
    (h : b.applyOp op = Except.ok b1) :
    n ≤ b1.nextId ∧ ∀ q, b1.product = some q → n ≤ q.id := by
  cases op with
  | producePartA => exact pushPart_id_lb n b b1 "PartA1" hn hq h
  | producePartB => exact pushPart_id_lb n b b1 "PartB1" hn hq h
  | producePartC => exact pushPart_id_lb n b b1 "PartC1" hn hq h
  | reset =>
      simp only [ConcreteBuilder1.applyOp, Except.ok.injEq] at h
      subst h
      exact reset_id_lb n b hn
  | getProduct =>
      simp only [ConcreteBuilder1.applyOp, ConcreteBuilder1.getProduct,
        Except.ok.injEq] at h
      subst h
      exact reset_id_lb n b hn

/-- Any sequence of operations preserves a lower bound on the allocation
counter and on the id of the held product: once a product id has been left
behind, no later state holds a product with a smaller id. -/
theorem runOps_id_lb (n : Nat) (ops : List BuilderOp) :
    ∀ b b1 : ConcreteBuilder1, n ≤ b.nextId →
      (∀ q, b.product = some q → n ≤ q.id) →
      b.runOps ops = Except.ok b1 →
      n ≤ b1.nextId ∧ ∀ q, b1.product = some q → n ≤ q.id := by
  induction ops with
  | nil =>
      intro b b1 hn hq h
      simp only [ConcreteBuilder1.runOps, Except.ok.injEq] at h
      subst h
      exact ⟨hn, hq⟩
  | cons op rest ih =>
      intro b b1 hn hq h
      cases hstep : b.applyOp op with
      | error e =>
          simp only [ConcreteBuilder1.runOps, hstep] at h
          exact Except.noConfusion h
      | ok bm =>
          obtain ⟨hn1, hq1⟩ := applyOp_id_lb n b bm op hn hq hstep
          exact ih bm b1 hn1 hq1 (by simpa only [ConcreteBuilder1.runOps, hstep] using h)

/-- Claim C1: for every finite sequence of producePartA/B/C calls on a fresh
ConcreteBuilder, the Product returned by the next getProduct() holds exactly
the corresponding fixed identifiers PartA1/PartB1/PartC1 in call order, one
entry per call, no dedup and no reordering. -/
theorem claim1_produce_sequence_parts (steps : List PartStep) :
    ∃ b1 : ConcreteBuilder1,
      ConcreteBuilder1.new.runProduce steps = Except.ok b1 ∧
      ∃ p : Product1, (b1.getProduct).1 = some p ∧
        p.parts = steps.map PartStep.partName := by
  refine ⟨ConcreteBuilder1.mk (some (Product1.mk 0 ([] ++ steps.map PartStep.partName))) 1,
    runProduce_ok steps 0 1 [], ?_⟩
  exact ⟨Product1.mk 0 ([] ++ steps.map PartStep.partName), rfl, by simp⟩

/-- Claim C2: in every builder state, buildFullFeaturedProduct() performs
exactly the step sequence producePartA, producePartB, producePartC, once
each and in that order, on the held builder; on a fresh ConcreteBuilder the
recipe followed by getProduct() yields exactly PartA1, PartB1, PartC1. -/
theorem claim2_full_featured_recipe :
    (∀ (w : World) (r : BuilderRef), w.directorBuilder = some r →
      w.buildFullFeaturedProduct =
        ((w.getBuilder r).runProduce [PartStep.partA, PartStep.partB, PartStep.partC]).map
          (fun b => w.setBuilderState r b)) ∧
    ∃ w1 : World,
      (freshWorld.setBuilder BuilderRef.r1).buildFullFeaturedProduct = Except.ok w1 ∧
      ∃ p : Product1, ((w1.getBuilder BuilderRef.r1).getProduct).1 = some p ∧
        p.parts = ["PartA1", "PartB1", "PartC1"] :=
  ⟨fun w r h => buildFull_eq_runProduce w r h, ⟨_, rfl, _, rfl, rfl⟩⟩

/-- Witness for claim C2 at a concrete world: a fresh world whose Director
has just been wired to the r1 builder. -/
theorem claim2_full_featured_recipe_witness :
    (freshWorld.setBuilder BuilderRef.r1).buildFullFeaturedProduct =
      (((freshWorld.setBuilder BuilderRef.r1).getBuilder BuilderRef.r1).runProduce
        [PartStep.partA, PartStep.partB, PartStep.partC]).map
        (fun b => (freshWorld.setBuilder BuilderRef.r1).setBuilderState BuilderRef.r1 b) :=
  claim2_full_featured_recipe.1 (freshWorld.setBuilder BuilderRef.r1) BuilderRef.r1 rfl

/-- Claim C3: in every builder state, buildMinimalViableProduct() performs
exactly one producePartA call on the held builder; on a fresh
ConcreteBuilder the recipe followed by getProduct() yields exactly PartA1. -/
theorem claim3_minimal_viable_recipe :
    (∀ (w : World) (r : BuilderRef), w.directorBuilder = some r →
      w.buildMinimalViableProduct =
        ((w.getBuilder r).runProduce [PartStep.partA]).map
          (fun b => w.setBuilderState r b)) ∧
    ∃ w1 : World,
      (freshWorld.setBuilder BuilderRef.r1).buildMinimalViableProduct = Except.ok w1 ∧
      ∃ p : Product1, ((w1.getBuilder BuilderRef.r1).getProduct).1 = some p ∧
        p.parts = ["PartA1"] :=
  ⟨fun w r h => buildMinimal_eq_runProduce w r h, ⟨_, rfl, _, rfl, rfl⟩⟩

/-- Witness for claim C3 at a concrete world: a fresh world whose Director
has just been wired to the r1 builder. -/
theorem claim3_minimal_viable_recipe_witness :
    (freshWorld.setBuilder BuilderRef.r1).buildMinimalViableProduct =
      (((freshWorld.setBuilder BuilderRef.r1).getBuilder BuilderRef.r1).runProduce
        [PartStep.partA]).map
        (fun b => (freshWorld.setBuilder BuilderRef.r1).setBuilderState BuilderRef.r1 b) :=
  claim3_minimal_viable_recipe.1 (freshWorld.setBuilder BuilderRef.r1) BuilderRef.r1 rfl

/-- Claim C4: after any getProduct() call, a second getProduct() with no
production calls in between returns a Product with an empty part sequence,
and the two retrievals are two distinct Product instances; moreover the
builder never again holds a product with the identity it just handed out,
whatever operations follow. -/
theorem claim4_get_product_resets (b : ConcreteBuilder1) (p : Product1)
    (hwf : b.wfb = true) (hp : b.product = some p) :
    (b.getProduct).1 = some p ∧
    (∃ q : Product1, ((b.getProduct).2.getProduct).1 = some q ∧
      q.parts = [] ∧ q.id ≠ p.id) ∧
    ∀ (ops : List BuilderOp) (b1 : ConcreteBuilder1),
      (b.getProduct).2.runOps ops = Except.ok b1 →
      ∀ q, b1.product = some q → q.id ≠ p.id := by
  have hlt : p.id < b.nextId := by
    simp only [ConcreteBuilder1.wfb, hp, decide_eq_true_eq] at hwf
    exact hwf
  refine ⟨hp, ⟨Product1.mk b.nextId [], rfl, rfl, hlt.ne'⟩, ?_⟩
  intro ops b1 hrun q hq1
  have hlb := runOps_id_lb (p.id + 1) ops (b.getProduct).2 b1
    (Nat.le_succ_of_le hlt)
    (by
      intro q0 hq0
      simp only [ConcreteBuilder1.getProduct, ConcreteBuilder1.reset, Product1.new,
        Option.some.injEq] at hq0
      rw [← hq0]
      exact hlt)
    hrun
  have hge := hlb.2 q hq1
  intro hcon
  rw [hcon] at hge
  exact Nat.not_succ_le_self p.id hge

/-- Witness for claim C4 at a freshly constructed ConcreteBuilder holding
the empty product with allocation id 0. -/
theorem claim4_get_product_resets_witness :
    (ConcreteBuilder1.new.getProduct).1 = some (Product1.mk 0 []) ∧
    ∃ q : Product1, ((ConcreteBuilder1.new.getProduct).2.getProduct).1 = some q ∧
      q.parts = [] ∧ q.id ≠ (Product1.mk 0 []).id :=
  ⟨(claim4_get_product_resets ConcreteBuilder1.new (Product1.mk 0 []) (by decide) rfl).1,
   (claim4_get_product_resets ConcreteBuilder1.new (Product1.mk 0 []) (by decide) rfl).2.1⟩

/-- Counterexample to claim C5 as stated: calling producePartA on a bare
Builder instance raises a TypeError (the Builder class declares no method of
that name), not a NotImplemented-kind error. -/
theorem claim5_counterexample :
    Builder.invoke MethodName.producePartA =
      Except.error (JsError.typeError "producePartA is not a function") ∧
    JsError.isNotImplementedKind (JsError.typeError "producePartA is not a function") = false :=
  ⟨rfl, rfl⟩

/-- Claim C5 as amended: on a bare Builder instance the producePartA/B/C
calls fail with a TypeError because the class does not declare them, while
the declared abstract methods buildPartA/B/C fail with the
NotImplemented-kind error (method must be implemented). -/
theorem claim5_amended_abstract_only :
    (∀ m : MethodName,
      (m = MethodName.producePartA ∨ m = MethodName.producePartB ∨ m = MethodName.producePartC) →
      Builder.invoke m = Except.error (JsError.typeError (m.str ++ " is not a function"))) ∧
    ∀ m : MethodName,
      (m = MethodName.buildPartA ∨ m = MethodName.buildPartB ∨ m = MethodName.buildPartC) →
      ∃ e, Builder.invoke m = Except.error e ∧ e.isNotImplementedKind = true := by
  constructor
  · intro m hm
    rcases hm with h | h | h <;> subst h <;> rfl
  · intro m hm
    rcases hm with h | h | h <;> subst h <;> exact ⟨_, rfl, rfl⟩

/-- Witness for the amended claim C5 at the concrete methods producePartB
and buildPartB. -/
theorem claim5_amended_witness :
    Builder.invoke MethodName.producePartB =
      Except.error (JsError.typeError (MethodName.producePartB.str ++ " is not a function")) ∧
    ∃ e, Builder.invoke MethodName.buildPartB = Except.error e ∧ e.isNotImplementedKind = true :=
  ⟨claim5_amended_abstract_only.1 MethodName.producePartB (Or.inr (Or.inl rfl)),
   claim5_amended_abstract_only.2 MethodName.buildPartB (Or.inr (Or.inl rfl))⟩

/-- Claim C6: on a Director on which setBuilder has never been called, both
recipe methods fail, by dereferencing the absent (undefined) builder
reference, on every such invocation. -/
theorem claim6_director_without_builder (w : World)
    (h : w.directorBuilder = none) :
    w.buildMinimalViableProduct =
      Except.error (JsError.typeError "Cannot read properties of undefined (reading producePartA)") ∧
    w.buildFullFeaturedProduct =
      Except.error (JsError.typeError "Cannot read properties of undefined (reading producePartA)") := by
  constructor <;>
    simp only [World.buildMinimalViableProduct, World.buildFullFeaturedProduct, h]

/-- Witness for claim C6 at the fresh world, whose Director has no builder
set. -/
theorem claim6_director_without_builder_witness :
    freshWorld.buildMinimalViableProduct =
      Except.error (JsError.typeError "Cannot read properties of undefined (reading producePartA)") ∧
    freshWorld.buildFullFeaturedProduct =
      Except.error (JsError.typeError "Cannot read properties of undefined (reading producePartA)") :=
  claim6_director_without_builder freshWorld rfl

/-- Claim C7: after Director.setBuilder points the Director at builder b2,
every subsequent sequence of recipe calls leaves builder b1 (including its
in-progress product) unchanged, and the Director keeps acting on b2. -/
theorem claim7_set_builder_frame (w : World) (recipes : List Recipe) (w1 : World)
    (h : (w.setBuilder BuilderRef.r2).runRecipes recipes = Except.ok w1) :
    w1.b1 = w.b1 ∧ w1.directorBuilder = some BuilderRef.r2 :=
  runRecipes_r2_frame recipes (w.setBuilder BuilderRef.r2) w1 rfl h

/-- Witness for claim C7: from the fresh world, setBuilder to r2 followed by
one full-featured recipe call mutates only b2. -/
theorem claim7_set_builder_frame_witness :
    (World.mk ConcreteBuilder1.new
      (ConcreteBuilder1.mk (some (Product1.mk 0 ["PartA1", "PartB1", "PartC1"])) 1)
      (some BuilderRef.r2)).b1 = freshWorld.b1 ∧
    (World.mk ConcreteBuilder1.new
      (ConcreteBuilder1.mk (some (Product1.mk 0 ["PartA1", "PartB1", "PartC1"])) 1)
      (some BuilderRef.r2)).directorBuilder = some BuilderRef.r2 :=
  claim7_set_builder_frame freshWorld [Recipe.fullFeatured] _ rfl

/-- Claim C8: listParts produces the human-readable join of all parts in
insertion order and has no side effect: the product is unchanged. -/
theorem claim8_list_parts_pure (p : Product1) :
    (p.listParts).1 = "Product parts: " ++ String.intercalate ", " p.parts ++ "\n" ∧
    (p.listParts).2 = p :=
  ⟨rfl, rfl⟩

/-- Claim C9: a freshly constructed ConcreteBuilder already holds an empty
Product (the constructor performs the reset), and after every sequence of
operations the current-product reference is a defined Product, so no
operation on a fresh builder ever hits an undefined product. -/
theorem claim9_product_always_defined :
    (∃ p : Product1, ConcreteBuilder1.new.product = some p ∧ p.parts = []) ∧
    ∀ ops : List BuilderOp, ∃ b1 : ConcreteBuilder1,
      ConcreteBuilder1.new.runOps ops = Except.ok b1 ∧ (b1.product).isSome = true := by
  refine ⟨⟨Product1.mk 0 [], rfl, rfl⟩, ?_⟩
  intro ops
  exact runOps_defined ops ConcreteBuilder1.new rfl

/-- Claim C10: ConcreteBuilder1 does not override buildPartA/B/C; calling
any of them on a ConcreteBuilder1 instance throws the must-be-implemented
error in every state, even though producePartA/B/C all succeed whenever a
product is held. -/
theorem claim10_inherited_abstract_throws :
    (∀ b : ConcreteBuilder1,
      b.buildPartA = Except.error (JsError.error (notImplementedMsg "buildPartA")) ∧
      b.buildPartB = Except.error (JsError.error (notImplementedMsg "buildPartB")) ∧
      b.buildPartC = Except.error (JsError.error (notImplementedMsg "buildPartC"))) ∧
    ∀ b : ConcreteBuilder1, (b.product).isSome = true →
      (∃ bA, b.producePartA = Except.ok bA) ∧
      (∃ bB, b.producePartB = Except.ok bB) ∧
      ∃ bC, b.producePartC = Except.ok bC := by
  constructor
  · intro b
    exact ⟨rfl, rfl, rfl⟩
  · intro b hb
    obtain ⟨p, hp⟩ := Option.isSome_iff_exists.mp hb
    refine ⟨⟨{ b with product := some { p with parts := p.parts ++ ["PartA1"] } }, ?_⟩,
      ⟨{ b with product := some { p with parts := p.parts ++ ["PartB1"] } }, ?_⟩,
      ⟨{ b with product := some { p with parts := p.parts ++ ["PartC1"] } }, ?_⟩⟩ <;>
      simp [ConcreteBuilder1.producePartA, ConcreteBuilder1.producePartB,
        ConcreteBuilder1.producePartC, ConcreteBuilder1.pushPart, hp]

/-- Witness for claim C10 at a freshly constructed ConcreteBuilder. -/
theorem claim10_inherited_abstract_throws_witness :
    ConcreteBuilder1.new.buildPartA =
      Except.error (JsError.error (notImplementedMsg "buildPartA")) ∧
    ∃ bA, ConcreteBuilder1.new.producePartA = Except.ok bA :=
  ⟨(claim10_inherited_abstract_throws.1 ConcreteBuilder1.new).1,
   (claim10_inherited_abstract_throws.2 ConcreteBuilder1.new rfl).1⟩

end DesignPatterns
